import Mathlib

/-!
Verification of the pomotoro tray/menu event-routing core
(`src/frontend/src-tauri/src/lib.rs`), as a shallow embedding.

Windows are identified by natural numbers.  The toolkit calls the code
makes (`show`, `hide`, `set_focus`, `prevent_close`, `exit`) are modelled
as an `Action` trace; calls whose Rust type is fallible (`hide()`,
`show()` return `Result`) take their outcome from an explicit environment
parameter, and an `.unwrap()` on a failed outcome is modelled as a panic
(`PanicKind`).  The window lookup `app.get_window("main")` is modelled by
an explicit `String → Option Nat` environment.
-/

namespace Tray

/-- A toolkit side effect performed by the core.  `setFocus` is part of
the toolkit interface (a window can be given input focus) although the
embedded code never emits it. -/
inductive Action where
  | exitApp (code : Int)
  | hideWindow (w : Nat)
  | showWindow (w : Nat)
  | setFocus (w : Nat)
  | preventClose
deriving DecidableEq, Repr

/-- A panic raised by an `.unwrap()` in the embedded code. -/
inductive PanicKind where
  | unwrapNone
  | unwrapHideErr
  | unwrapShowErr
deriving DecidableEq, Repr

/-- `tauri::CustomMenuItem`: identifier plus display label. -/
structure CustomMenuItem where
  id : String
  title : String
deriving DecidableEq, Repr

/-- `CustomMenuItem::new(id, title)`. -/
def CustomMenuItem.new (id title : String) : CustomMenuItem :=
  ⟨id, title⟩

/-- `tauri::SystemTrayMenuItem` (only the separator is used). -/
inductive SystemTrayMenuItem where
  | separator
deriving DecidableEq, Repr

/-- One entry of a system tray menu: a custom item or a native item. -/
inductive MenuEntry where
  | custom (item : CustomMenuItem)
  | native (item : SystemTrayMenuItem)
deriving DecidableEq, Repr

/-- `tauri::SystemTrayMenu`: an ordered sequence of entries. -/
structure SystemTrayMenu where
  items : List MenuEntry
deriving DecidableEq, Repr

/-- `SystemTrayMenu::new()`. -/
def SystemTrayMenu.new : SystemTrayMenu := ⟨[]⟩

/-- `SystemTrayMenu::add_item`. -/
def SystemTrayMenu.add_item (m : SystemTrayMenu) (it : CustomMenuItem) : SystemTrayMenu :=
  ⟨m.items ++ [MenuEntry.custom it]⟩

/-- `SystemTrayMenu::add_native_item`. -/
def SystemTrayMenu.add_native_item (m : SystemTrayMenu) (it : SystemTrayMenuItem) : SystemTrayMenu :=
  ⟨m.items ++ [MenuEntry.native it]⟩

/-- `let quit = CustomMenuItem::new("quit".to_string(), "Quit");` -/
def quitItem : CustomMenuItem := CustomMenuItem.new "quit" "Quit"

/-- `let hide = CustomMenuItem::new("hide".to_string(), "Hide");` -/
def hideItem : CustomMenuItem := CustomMenuItem.new "hide" "Hide"

/-- `let show = CustomMenuItem::new("show".to_string(), "Show");` -/
def showItem : CustomMenuItem := CustomMenuItem.new "show" "Show"

/-- The menu built in `run()`:
`SystemTrayMenu::new().add_item(show).add_item(hide)
  .add_native_item(SystemTrayMenuItem::Separator).add_item(quit)`. -/
def tray_menu : SystemTrayMenu :=
  (((SystemTrayMenu.new.add_item showItem).add_item hideItem).add_native_item
      SystemTrayMenuItem.separator).add_item quitItem

/-- `tauri::SystemTrayEvent`, restricted to the fields the code reads:
a menu item click carries the clicked item identifier. -/
inductive SystemTrayEvent where
  | menuItemClick (id : String)
  | other
deriving DecidableEq, Repr

/-- `tauri::WindowEvent`, restricted to what the code matches on. -/
inductive WindowEvent where
  | closeRequested
  | other
deriving DecidableEq, Repr

/-- `tauri::GlobalWindowEvent`: the event together with the window that
emitted it (`event.window()`). -/
structure GlobalWindowEvent where
  window : Nat
  event : WindowEvent
deriving DecidableEq, Repr

/-- `handle_system_tray_event`, from `src/frontend/src-tauri/src/lib.rs`.

`get_window` models `app.get_window`, `hideFails`/`showFails` model the
outcome of the fallible toolkit calls `window.hide()` / `window.show()`.
The result is the trace of side effects actually performed, paired with
`some p` when the handler panicked (an `.unwrap()` failed).

```
SystemTrayEvent::MenuItemClick { id, .. } => {
    let window = app.get_window("main").unwrap();
    match id.as_str() {
        "quit" => { app.exit(0); }
        "hide" => { window.hide().unwrap(); }
        "show" => { window.show().unwrap(); }
        _ => {}
    }
}
_ => {}
``` -/
def handle_system_tray_event (get_window : String → Option Nat)
    (hideFails showFails : Nat → Bool) (event : SystemTrayEvent) :
    List Action × Option PanicKind :=
  match event with
  | SystemTrayEvent.menuItemClick id =>
    match get_window "main" with
    | none => ([], some PanicKind.unwrapNone)
    | some window =>
      match id with
      | "quit" => ([Action.exitApp 0], none)
      | "hide" =>
        if hideFails window then ([], some PanicKind.unwrapHideErr)
        else ([Action.hideWindow window], none)
      | "show" =>
        if showFails window then ([], some PanicKind.unwrapShowErr)
        else ([Action.showWindow window], none)
      | _ => ([], none)
  | SystemTrayEvent.other => ([], none)

/-- `handle_window_event`, from `src/frontend/src-tauri/src/lib.rs`.

```
WindowEvent::CloseRequested { api, .. } => {
    api.prevent_close();
    event.window().hide().unwrap();
}
_ => {}
``` -/
def handle_window_event (hideFails : Nat → Bool) (ev : GlobalWindowEvent) :
    List Action × Option PanicKind :=
  match ev.event with
  | WindowEvent.closeRequested =>
    if hideFails ev.window then
      ([Action.preventClose], some PanicKind.unwrapHideErr)
    else
      ([Action.preventClose, Action.hideWindow ev.window], none)
  | WindowEvent.other => ([], none)

/-- The externally observable window states of the state-machine view,
plus the terminal state entered by `app.exit(0)`. -/
inductive WinState where
  | visible
  | hidden
  | terminated
deriving DecidableEq, Repr

/-- Effect of one performed toolkit action on the observable state. -/
def applyAction (s : WinState) (a : Action) : WinState :=
  match a with
  | Action.exitApp _ => WinState.terminated
  | Action.hideWindow _ => WinState.hidden
  | Action.showWindow _ => WinState.visible
  | Action.setFocus _ => s
  | Action.preventClose => s

/-- The lookup environment of a live application: the single main window
(number 0) exists under its fixed logical name. -/
def mainLookup : String → Option Nat :=
  fun name => if name = "main" then some 0 else none

/-- Toolkit calls succeed in the live environment. -/
def noFail : Nat → Bool := fun _ => false

/-- An incoming event of the state-machine view: a tray menu click
carrying its identifier, or a close request on the main window. -/
inductive Ev where
  | menu (id : String)
  | closeRequested
deriving DecidableEq, Repr

/-- The step relation induced by the two handlers on a live application:
in `terminated` no further events are processed; otherwise the event's
handler runs and its performed trace is applied to the state. -/
def step (s : WinState) (e : Ev) : WinState :=
  match s with
  | WinState.terminated => WinState.terminated
  | _ =>
    let trace :=
      match e with
      | Ev.menu id =>
        (handle_system_tray_event mainLookup noFail noFail
          (SystemTrayEvent.menuItemClick id)).1
      | Ev.closeRequested =>
        (handle_window_event noFail ⟨0, WindowEvent.closeRequested⟩).1
    trace.foldl applyAction s

/-! ### Helper lemmas (shared) -/

/-- Evaluating the tray handler on a click whose identifier is none of
the three known ones, when the lookup succeeds: the wildcard arm runs,
performing nothing. -/
theorem tray_click_unknown_eval (gw : String → Option Nat) (hf sf : Nat → Bool)
    (w : Nat) (id : String) (h : gw "main" = some w)
    (h1 : id ≠ "quit") (h2 : id ≠ "hide") (h3 : id ≠ "show") :
    handle_system_tray_event gw hf sf (SystemTrayEvent.menuItemClick id) = ([], none) := by
  simp only [handle_system_tray_event, h]

/-- A click with an unknown identifier leaves every live state unchanged,
and `terminated` stays `terminated`. -/
theorem step_menu_unknown (s : WinState) (id : String)
    (h1 : id ≠ "quit") (h2 : id ≠ "hide") (h3 : id ≠ "show") :
    step s (Ev.menu id) = s := by
  have h := tray_click_unknown_eval mainLookup noFail noFail 0 id (by decide) h1 h2 h3
  cases s <;> simp [step, h]

/-! ### Claim theorems -/

/-- Claim C6: the tray menu is, in order, item `show` labelled "Show",
item `hide` labelled "Hide", a separator, and item `quit` labelled
"Quit", and nothing else. -/
theorem tray_menu_structure :
    tray_menu.items =
      [MenuEntry.custom ⟨"show", "Show"⟩, MenuEntry.custom ⟨"hide", "Hide"⟩,
       MenuEntry.native SystemTrayMenuItem.separator,
       MenuEntry.custom ⟨"quit", "Quit"⟩] := by
  rfl

/-- Claim C1 (counterexample): dispatching `show` when the main-window
lookup misses does NOT complete without error — the handler panics
(`unwrap` on `None`), refuting the claim that the miss is absorbed as a
no-op rather than a fault. -/
theorem show_lookup_miss_cex :
    ¬ (handle_system_tray_event (fun _ => none) noFail noFail
        (SystemTrayEvent.menuItemClick "show")).2 = none := by
  decide

/-- Claim C1 (amended): for every menu click, if the main window cannot
be resolved the handler panics on the failed `unwrap`, having performed
no side effect (so window state is unchanged — but an error IS raised). -/
theorem lookup_miss_panics_no_side_effect
    (gw : String → Option Nat) (hf sf : Nat → Bool) (id : String)
    (h : gw "main" = none) :
    handle_system_tray_event gw hf sf (SystemTrayEvent.menuItemClick id) =
      ([], some PanicKind.unwrapNone) := by
  simp [handle_system_tray_event, h]

/-- Claim C1 (witness). -/
theorem lookup_miss_panics_no_side_effect_witness :
    handle_system_tray_event (fun _ => none) noFail noFail
      (SystemTrayEvent.menuItemClick "hide") = ([], some PanicKind.unwrapNone) :=
  lookup_miss_panics_no_side_effect (fun _ => none) noFail noFail "hide" rfl

/-- Claim C2 (counterexample): with the main window found, the `show`
branch performs exactly one action — showing the window — and no
input-focus grant appears in the trace, refuting "and gives it input
focus". -/
theorem show_no_focus_cex :
    (handle_system_tray_event mainLookup noFail noFail
        (SystemTrayEvent.menuItemClick "show")).1 = [Action.showWindow 0] ∧
    Action.setFocus 0 ∉ (handle_system_tray_event mainLookup noFail noFail
        (SystemTrayEvent.menuItemClick "show")).1 := by
  decide

/-- Claim C2 (amended): when the main window is found (and the toolkit
call succeeds), dispatching `show` shows the window — with no explicit
focus grant — and from state `Hidden` this transitions to `Visible`. -/
theorem show_shows_window
    (gw : String → Option Nat) (hf sf : Nat → Bool) (w : Nat)
    (h : gw "main" = some w) (hs : sf w = false) :
    handle_system_tray_event gw hf sf (SystemTrayEvent.menuItemClick "show") =
      ([Action.showWindow w], none) ∧
    step WinState.hidden (Ev.menu "show") = WinState.visible := by
  constructor
  · simp [handle_system_tray_event, h, hs]
  · decide

/-- Claim C2 (witness). -/
theorem show_shows_window_witness :
    (handle_system_tray_event mainLookup noFail noFail
        (SystemTrayEvent.menuItemClick "show") = ([Action.showWindow 0], none) ∧
      step WinState.hidden (Ev.menu "show") = WinState.visible) :=
  show_shows_window mainLookup noFail noFail 0 (by decide) rfl

/-- Claim C3 (counterexample): an unknown identifier is NOT a silent
no-op regardless of whether the main window exists — when the lookup
misses, the handler panics before inspecting the identifier. -/
theorem unknown_id_lookup_miss_cex :
    ¬ (handle_system_tray_event (fun _ => none) noFail noFail
        (SystemTrayEvent.menuItemClick "settings")).2 = none := by
  decide

/-- Claim C3 (amended): for every identifier outside {show, hide, quit},
when the main window is found, routing the click produces no side effect
and no error; when the lookup misses it panics like every other click. -/
theorem unknown_id_noop_when_window_found
    (gw : String → Option Nat) (hf sf : Nat → Bool) (w : Nat) (id : String)
    (h : gw "main" = some w)
    (h1 : id ≠ "quit") (h2 : id ≠ "hide") (h3 : id ≠ "show") :
    handle_system_tray_event gw hf sf (SystemTrayEvent.menuItemClick id) =
      ([], none) := by
  exact tray_click_unknown_eval gw hf sf w id h h1 h2 h3

/-- Claim C3 (witness). -/
theorem unknown_id_noop_when_window_found_witness :
    handle_system_tray_event mainLookup noFail noFail
      (SystemTrayEvent.menuItemClick "config") = ([], none) :=
  unknown_id_noop_when_window_found mainLookup noFail noFail 0 "config"
    (by decide) (by decide) (by decide) (by decide)

/-- Claim C4: with the main window found (the precondition of every
click), dispatching `quit` performs exactly the process termination with
exit status 0 and never panics, for any outcome of the fallible toolkit
calls; from both live states the step relation reaches `terminated`. -/
theorem quit_exits_zero
    (gw : String → Option Nat) (hf sf : Nat → Bool) (w : Nat)
    (h : gw "main" = some w) :
    handle_system_tray_event gw hf sf (SystemTrayEvent.menuItemClick "quit") =
      ([Action.exitApp 0], none) ∧
    step WinState.visible (Ev.menu "quit") = WinState.terminated ∧
    step WinState.hidden (Ev.menu "quit") = WinState.terminated := by
  refine ⟨?_, by decide, by decide⟩
  simp [handle_system_tray_event, h]

/-- Claim C4 (witness). -/
theorem quit_exits_zero_witness :
    (handle_system_tray_event mainLookup noFail noFail
        (SystemTrayEvent.menuItemClick "quit") = ([Action.exitApp 0], none) ∧
      step WinState.visible (Ev.menu "quit") = WinState.terminated ∧
      step WinState.hidden (Ev.menu "quit") = WinState.terminated) :=
  quit_exits_zero mainLookup noFail noFail 0 (by decide)

/-- Claim C5: a close-requested event suppresses the default close
(`prevent_close`) and hides the emitting window instead; the induced
step stays in the live states (`Visible` goes to `Hidden`, `Hidden`
stays `Hidden`), never reaching `Terminated`. -/
theorem close_requested_hides_keeps_alive (w : Nat) :
    handle_window_event noFail ⟨w, WindowEvent.closeRequested⟩ =
      ([Action.preventClose, Action.hideWindow w], none) ∧
    step WinState.visible Ev.closeRequested = WinState.hidden ∧
    step WinState.hidden Ev.closeRequested = WinState.hidden := by
  exact ⟨rfl, by decide, by decide⟩

/-- Claim C5 (witness). -/
theorem close_requested_hides_keeps_alive_witness :
    (handle_window_event noFail ⟨3, WindowEvent.closeRequested⟩ =
        ([Action.preventClose, Action.hideWindow 3], none) ∧
      step WinState.visible Ev.closeRequested = WinState.hidden ∧
      step WinState.hidden Ev.closeRequested = WinState.hidden) :=
  close_requested_hides_keeps_alive 3

/-- Claim C7: the step relation realises exactly the specified
transitions — `Visible` to `Hidden` on close-request and on `hide`,
`Hidden` to `Visible` on `show`, both live states to `Terminated` on
`quit`; every other step is a stutter, `Terminated` is absorbing, and
`Terminated` is entered only by the `quit` action. -/
theorem step_relation_characterization :
    step WinState.visible Ev.closeRequested = WinState.hidden ∧
    step WinState.visible (Ev.menu "hide") = WinState.hidden ∧
    step WinState.hidden (Ev.menu "show") = WinState.visible ∧
    step WinState.visible (Ev.menu "quit") = WinState.terminated ∧
    step WinState.hidden (Ev.menu "quit") = WinState.terminated ∧
    (∀ e, step WinState.terminated e = WinState.terminated) ∧
    (∀ s e, step s e = s ∨
      (s = WinState.visible ∧ e = Ev.closeRequested ∧ step s e = WinState.hidden) ∨
      (s = WinState.visible ∧ e = Ev.menu "hide" ∧ step s e = WinState.hidden) ∨
      (s = WinState.hidden ∧ e = Ev.menu "show" ∧ step s e = WinState.visible) ∨
      (s ≠ WinState.terminated ∧ e = Ev.menu "quit" ∧ step s e = WinState.terminated)) ∧
    (∀ s e, s ≠ WinState.terminated → step s e = WinState.terminated →
      e = Ev.menu "quit") := by
  refine ⟨by decide, by decide, by decide, by decide, by decide, fun e => rfl, ?_, ?_⟩
  · intro s e
    cases e with
    | closeRequested =>
      cases s with
      | visible => exact Or.inr (Or.inl ⟨rfl, rfl, by decide⟩)
      | hidden => exact Or.inl (by decide)
      | terminated => exact Or.inl rfl
    | menu id =>
      by_cases h1 : id = "quit"
      · subst h1
        cases s with
        | visible =>
          exact Or.inr (Or.inr (Or.inr (Or.inr ⟨by decide, rfl, by decide⟩)))
        | hidden =>
          exact Or.inr (Or.inr (Or.inr (Or.inr ⟨by decide, rfl, by decide⟩)))
        | terminated => exact Or.inl rfl
      · by_cases h2 : id = "hide"
        · subst h2
          cases s with
          | visible => exact Or.inr (Or.inr (Or.inl ⟨rfl, rfl, by decide⟩))
          | hidden => exact Or.inl (by decide)
          | terminated => exact Or.inl rfl
        · by_cases h3 : id = "show"
          · subst h3
            cases s with
            | visible => exact Or.inl (by decide)
            | hidden => exact Or.inr (Or.inr (Or.inr (Or.inl ⟨rfl, rfl, by decide⟩)))
            | terminated => exact Or.inl rfl
          · exact Or.inl (step_menu_unknown s id h1 h2 h3)
  · intro s e hs ht
    cases e with
    | closeRequested =>
      cases s with
      | visible => exact absurd ht (by decide)
      | hidden => exact absurd ht (by decide)
      | terminated => exact absurd rfl hs
    | menu id =>
      by_cases h1 : id = "quit"
      · rw [h1]
      · exfalso
        by_cases h2 : id = "hide"
        · subst h2
          cases s with
          | visible => exact absurd ht (by decide)
          | hidden => exact absurd ht (by decide)
          | terminated => exact hs rfl
        · by_cases h3 : id = "show"
          · subst h3
            cases s with
            | visible => exact absurd ht (by decide)
            | hidden => exact absurd ht (by decide)
            | terminated => exact hs rfl
          · cases s with
            | visible =>
              rw [step_menu_unknown _ _ h1 h2 h3] at ht
              exact absurd ht (by decide)
            | hidden =>
              rw [step_menu_unknown _ _ h1 h2 h3] at ht
              exact absurd ht (by decide)
            | terminated => exact hs rfl

/-- Claim C7 (witness). -/
theorem step_relation_characterization_witness :
    step WinState.terminated (Ev.menu "show") = WinState.terminated ∧
    Ev.menu "quit" = Ev.menu "quit" :=
  ⟨step_relation_characterization.2.2.2.2.2.1 (Ev.menu "show"),
   step_relation_characterization.2.2.2.2.2.2.2 WinState.visible (Ev.menu "quit")
     (by decide) (by decide)⟩

/-- Claim C8: dispatching `hide` twice in a row, or `show` twice in a
row, yields the same window state as dispatching it once, from every
state. -/
theorem hide_show_idempotent (s : WinState) :
    step (step s (Ev.menu "hide")) (Ev.menu "hide") = step s (Ev.menu "hide") ∧
    step (step s (Ev.menu "show")) (Ev.menu "show") = step s (Ev.menu "show") := by
  cases s <;> exact ⟨by decide, by decide⟩

/-- Claim C8 (witness). -/
theorem hide_show_idempotent_witness :
    (step (step WinState.visible (Ev.menu "hide")) (Ev.menu "hide") =
        step WinState.visible (Ev.menu "hide") ∧
      step (step WinState.visible (Ev.menu "show")) (Ev.menu "show") =
        step WinState.visible (Ev.menu "show")) :=
  hide_show_idempotent WinState.visible

/-- Claim C9: the main-window lookup and its `unwrap` happen before the
menu identifier is inspected — a lookup miss panics on every identifier
(including `quit` and unknown ones) — and when the lookup succeeds, the
lookup panic is impossible for every identifier. -/
theorem lookup_precedes_id_inspection
    (gw : String → Option Nat) (hf sf : Nat → Bool) (id : String) :
    (gw "main" = none →
      handle_system_tray_event gw hf sf (SystemTrayEvent.menuItemClick id) =
        ([], some PanicKind.unwrapNone)) ∧
    (∀ w, gw "main" = some w →
      (handle_system_tray_event gw hf sf (SystemTrayEvent.menuItemClick id)).2 ≠
        some PanicKind.unwrapNone) := by
  constructor
  · intro h
    simp [handle_system_tray_event, h]
  · intro w h
    simp only [handle_system_tray_event, h]
    split <;> (try split) <;> simp

/-- Claim C9 (witness). -/
theorem lookup_precedes_id_inspection_witness :
    (handle_system_tray_event (fun _ => none) noFail noFail
        (SystemTrayEvent.menuItemClick "quit") = ([], some PanicKind.unwrapNone)) ∧
    ((handle_system_tray_event mainLookup noFail noFail
        (SystemTrayEvent.menuItemClick "quit")).2 ≠ some PanicKind.unwrapNone) :=
  ⟨(lookup_precedes_id_inspection (fun _ => none) noFail noFail "quit").1 rfl,
   (lookup_precedes_id_inspection mainLookup noFail noFail "quit").2 0 (by decide)⟩

/-- Claim C10: for every close-requested event, on whatever window
emitted it, `prevent_close` is performed first — before the hide attempt
— so the close is suppressed even when the hide call fails; the handler
touches only the event's own window, never a looked-up one. -/
theorem close_prevent_before_hide (w : Nat) (hf : Nat → Bool) :
    handle_window_event hf ⟨w, WindowEvent.closeRequested⟩ =
      (if hf w then ([Action.preventClose], some PanicKind.unwrapHideErr)
       else ([Action.preventClose, Action.hideWindow w], none)) ∧
    (handle_window_event hf ⟨w, WindowEvent.closeRequested⟩).1.head? =
      some Action.preventClose := by
  constructor
  · rfl
  · by_cases h : hf w = true <;> simp [handle_window_event, h]

/-- Claim C10 (witness). -/
theorem close_prevent_before_hide_witness :
    (handle_window_event (fun _ => true) ⟨5, WindowEvent.closeRequested⟩ =
        (if (fun _ : Nat => true) 5 then
          ([Action.preventClose], some PanicKind.unwrapHideErr)
         else ([Action.preventClose, Action.hideWindow 5], none)) ∧
      (handle_window_event (fun _ => true) ⟨5, WindowEvent.closeRequested⟩).1.head? =
        some Action.preventClose) :=
  close_prevent_before_hide 5 (fun _ => true)

end Tray
